import Mathlib

/-!
Verification model of `tools/autoroller/roll_webrtc_in_chromium.py`.

The script advances the Chromium DEPS pins of two vendored dependencies
(webrtc and libjingle) to their upstream tips, commits the bump on a
reserved roll branch, uploads it for review, and optionally sends it to
the commit queue.  This file gives a shallow embedding of the script:

* the pure text manipulations (regex matches, line splitting, slicing)
  are translated into executable Lean functions over `List Char` and
  `String`, following Python's semantics for `strip`, `split`,
  `splitlines`, `find` and greedy regex matching;
* the stateful orchestration (`PrepareRoll`, `Abort`, the branch
  lifecycle) is translated into explicit state passing over `RepoState`,
  with the external git / rietveld commands modelled as deterministic
  state transformers and the texts they return supplied by a `RollEnv`
  oracle;
* `sys.exit` is modelled by the `exited` outcome carrying the exit code
  and the checkout state left behind at that point.
-/

/-! ### Python string helpers -/

/-- The whitespace characters stripped by Python's `str.strip()` /
split by `str.split()` (ASCII part; exotic unicode spaces are not
modelled). -/
def isPySpace (c : Char) : Bool :=
  c = ' ' || c = '\t' || c = '\n' || c = '\r' || c = Char.ofNat 11 || c = Char.ofNat 12

/-- Python `s.strip()`. -/
def pyStrip (s : String) : String :=
  String.mk (((s.data.dropWhile isPySpace).reverse.dropWhile isPySpace).reverse)

/-- Split a character list at every character satisfying `p`, keeping
empty chunks (the chunk boundaries are consumed). -/
def splitByAux (p : Char → Bool) : List Char → List Char → List (List Char)
  | [], acc => [acc.reverse]
  | c :: rest, acc =>
      if p c then acc.reverse :: splitByAux p rest []
      else splitByAux p rest (c :: acc)

/-- Python `s.splitlines()` for `\n`-separated text (git output):
interior empty lines are kept, one trailing newline produces no extra
empty line, and the empty string has no lines. -/
def pySplitlines (s : String) : List String :=
  if s.data.isEmpty then []
  else
    let parts := splitByAux (fun c => c = '\n') s.data []
    (if parts.getLast? = some [] then parts.dropLast else parts).map String.mk

/-- Python `s.split()` with no argument: split on whitespace runs,
discarding empty chunks. -/
def pySplitWs (s : String) : List String :=
  ((splitByAux isPySpace s.data []).filter (fun l => !l.isEmpty)).map String.mk

/-- Python `s.find(c)`: index of the first occurrence, `-1` if absent. -/
def pyFindChar (cs : List Char) (c : Char) : Int :=
  match cs with
  | [] => -1
  | x :: rest =>
      if x = c then 0
      else
        let r := pyFindChar rest c
        if r = -1 then -1 else r + 1

/-- Python slicing `s[0:n]` (character based). -/
def strTake (s : String) (n : Nat) : String := String.mk (s.data.take n)

/-- The value of a nonempty decimal digit string, as Python `int`. -/
def digitsToNat (ds : List Char) : Nat :=
  ds.foldl (fun n c => n * 10 + (c.toNat - '0'.toNat)) 0

/-- Python truthiness of a string: nonempty. -/
def pyTruthy (s : String) : Bool := !s.data.isEmpty

/-! ### Regex models

The script uses three fixed regexes; each is translated into an
executable matcher with Python's greedy-backtracking semantics. -/

/-- For `GIT_SVN_ID_RE`'s suffix `.*#([0-9]+).*$`: the greedy `.*`
backtracks to the rightmost `#` that is followed by at least one digit;
the group captures the maximal digit run after that `#`.  Returns the
captured digits. -/
def findHashDigits : List Char → Option (List Char)
  | [] => none
  | c :: rest =>
      match findHashDigits rest with
      | some r => some r
      | none =>
          if c = '#' then
            let ds := rest.takeWhile (fun ch => ch.isDigit)
            if ds.isEmpty then none else some ds
          else none

/-- `GIT_SVN_ID_RE = re.compile('^Cr-Original-Commit-Position: .*#([0-9]+).*$')`
applied with `.match`; returns group 1. -/
def matchGitSvnId (line : String) : Option String :=
  let pre := "Cr-Original-Commit-Position: "
  if pre.data.isPrefixOf line.data then
    (findHashDigits (line.data.drop pre.data.length)).map String.mk
  else none

/-- Split a character list around its last `'/'`; `none` when there is
no `'/'`.  This is the greedy reading of `(.*)/(.*)`. -/
def splitAtLastSlash (cs : List Char) : Option (List Char × List Char) :=
  match cs with
  | [] => none
  | c :: rest =>
      match splitAtLastSlash rest with
      | some (a, b) => some (c :: a, b)
      | none => if c = '/' then some ([], rest) else none

/-- `RIETVELD_URL_RE = re.compile('^https?://(.*)/(.*)')` applied with
`.match`; returns (group 1, group 2).  The greedy first `.*` captures
everything up to the last `'/'` after the scheme. -/
def matchRietveldUrl (url : String) : Option (String × String) :=
  let rest? : Option (List Char) :=
    if ("https://").data.isPrefixOf url.data then some (url.data.drop 8)
    else if ("http://").data.isPrefixOf url.data then some (url.data.drop 7)
    else none
  match rest? with
  | none => none
  | some rest =>
      (splitAtLastSlash rest).map (fun p => (String.mk p.1, String.mk p.2))

/-- `CL_ISSUE_RE = re.compile('^Issue number: ([0-9]+) \\((.*)\\)$')`
applied with `.match`; returns (group 1 digits, group 2).  The digit
group is the maximal digit run after the prefix; it must be followed by
a space and an opening parenthesis, and the string must end with a
closing parenthesis, the greedy `.*` capturing everything in between. -/
def matchClIssue (s : String) : Option (List Char × String) :=
  let pre := "Issue number: "
  if pre.data.isPrefixOf s.data then
    let rest := s.data.drop pre.data.length
    let ds := rest.takeWhile (fun ch => ch.isDigit)
    if ds.isEmpty then none
    else
      match rest.dropWhile (fun ch => ch.isDigit) with
      | ' ' :: '(' :: tail =>
          if tail.getLast? = some ')' then some (ds, String.mk tail.dropLast)
          else none
      | _ => none
  else none

/-! ### Data model -/

/-- `CommitInfo` named tuple: upstream (svn) sequence number, git commit
identifier, source repository URL.  The revision fields are kept as the
strings the script extracts.  `git_repo_url` is the empty string where
the source passes `None` (tip-of-tree lookups), whose value is never
used. -/
structure CommitInfo where
  svn_revision : String
  git_commit : String
  git_repo_url : String
deriving DecidableEq

/-- `CLInfo` named tuple: issue number, review URL, rietveld host. -/
structure CLInfo where
  issue : Nat
  url : String
  rietveld_server : String
deriving DecidableEq

/-! ### Pure parsing functions of the script -/

/-- Body of `_ParseSvnRevisionFromGitDescription`: scan the lines in
reverse order, returning the regex group of the first (i.e. bottom-most)
stripped line matching `GIT_SVN_ID_RE`. -/
def parseSvnLines (lines : List String) : Option String :=
  lines.reverse.findSome? (fun line => matchGitSvnId (pyStrip line))

/-- `_ParseSvnRevisionFromGitDescription`; `none` models the
`sys.exit(-1)` taken when no line matches. -/
def _ParseSvnRevisionFromGitDescription (description : String) : Option String :=
  parseSvnLines (pySplitlines description)

/-- `_ParseGitCommitFromDescription`: the second whitespace-separated
token of the first line starting with `"commit "`; `none` models the
`sys.exit(-1)` when no such line exists (a first matching line whose
tail is all whitespace raises `IndexError` in the source, also an
abnormal termination, mapped to `none` as well). -/
def _ParseGitCommitFromDescription (description : String) : Option String :=
  match (pySplitlines description).find? (fun line => ("commit ").data.isPrefixOf line.data) with
  | none => none
  | some line => (pySplitWs line).get? 1

/-- The `CommitInfo` built by `_GetCommitInfo` from the text of
`git log <range> --pretty=full -1`; `none` models the fatal parse
exits. -/
def mkCommitInfo (description : String) (git_repo_url : String) : Option CommitInfo :=
  match _ParseSvnRevisionFromGitDescription description,
        _ParseGitCommitFromDescription description with
  | some svn, some gc => some ⟨svn, gc, git_repo_url⟩
  | _, _ => none

/-- The `deps` entry split of `_GetDepsCommitInfo`:
`at_index = entry.find('@'); (entry[:at_index], entry[at_index + 1:])`.
When `'@'` is absent Python's `find` returns `-1`, making the URL part
`entry[:-1]` and the hash part the whole entry; this corner is modelled
faithfully. -/
def splitAtFirstAt (entry : String) : String × String :=
  let i := pyFindChar entry.data '@'
  if i = -1 then (String.mk entry.data.dropLast, entry)
  else (String.mk (entry.data.take i.toNat), String.mk (entry.data.drop (i.toNat + 1)))

/-- `_GetCLInfo` as a function of the text printed by `git cl issue`:
parse the issue line, then the rietveld host from the URL.  `.error c`
models `sys.exit(c)`. -/
def _GetCLInfo (cl_output : String) : Except Int CLInfo :=
  match matchClIssue (pyStrip cl_output) with
  | none => .error (-1)
  | some (ds, url) =>
      match matchRietveldUrl url with
      | none => .error (-1)
      | some (server, _) => .ok ⟨digitsToNat ds, url, server⟩

/-! ### CL description generation -/

/-- `GetChangeLogURL` (local function inside `_GenerateCLDescription`):
`'%s/+log/%s..%s' % (git_repo_url, current_hash[0:7], new_hash[0:7])`. -/
def GetChangeLogURL (git_repo_url current_hash new_hash : String) : String :=
  git_repo_url ++ "/+log/" ++ strTake current_hash 7 ++ ".." ++ strTake new_hash 7

/-- `_GenerateCLDescription`.  Section strings are empty when the
dependency's commit is unchanged; Python's string-truthiness tests are
modelled by `pyTruthy`. -/
def _GenerateCLDescription (webrtc_current libjingle_current webrtc_new libjingle_new : CommitInfo) : String :=
  let webrtc_str :=
    if webrtc_current.git_commit = webrtc_new.git_commit then ""
    else "WebRTC " ++ webrtc_current.svn_revision ++ ":" ++ webrtc_new.svn_revision
  let webrtc_changelog_url :=
    GetChangeLogURL webrtc_current.git_repo_url webrtc_current.git_commit webrtc_new.git_commit
  let delim :=
    if libjingle_current.git_commit = libjingle_new.git_commit then ""
    else if pyTruthy webrtc_str then ", " else ""
  let libjingle_str :=
    if libjingle_current.git_commit = libjingle_new.git_commit then ""
    else "Libjingle " ++ libjingle_current.svn_revision ++ ":" ++ libjingle_new.svn_revision
  let libjingle_changelog_url :=
    GetChangeLogURL libjingle_current.git_repo_url libjingle_current.git_commit libjingle_new.git_commit
  let description := "Roll " ++ webrtc_str ++ delim ++ libjingle_str ++ "\n\n"
  let description :=
    if pyTruthy webrtc_str then
      description ++ webrtc_str ++ "\n" ++ "Changes: " ++ webrtc_changelog_url ++ "\n\n"
    else description
  let description :=
    if pyTruthy libjingle_str then
      description ++ libjingle_str ++ "\n" ++ "Changes: " ++ libjingle_changelog_url ++ "\n"
    else description
  description ++ "\nTBR="

/-! ### Checkout state and external commands

`RepoState` is the mutable state of the downstream checkout that the
script touches: the active branch, the local branch list, the DEPS
entries of the two dependencies (both the working-tree value and the
value recorded in `HEAD`), the README revision marker, a flag for any
other uncommitted modification, and counters for the externally visible
review-system actions.  Git branch lists hold no duplicates, so branch
deletion is modelled by `List.filter`. -/

structure RepoState where
  currentBranch : String
  branches : List String
  /-- Uncommitted modifications to tracked files other than the pins
  and the README marker (what makes `git status --porcelain` nonempty
  besides them; untracked files are not distinguished). -/
  baseDirty : Bool
  /-- Working-tree DEPS entry for `third_party/webrtc` (`url@hash`). -/
  webrtcEntry : String
  /-- Working-tree DEPS entry for `third_party/libjingle/source/talk`. -/
  libjingleEntry : String
  headWebrtcEntry : String
  headLibjingleEntry : String
  /-- The `Revision:` field of `third_party/libjingle/README.chromium`. -/
  readmeRevision : String
  headReadmeRevision : String
  commitsMade : Nat
  uploadsMade : Nat
  /-- `git cl set_commit` invocations (commit-queue requests). -/
  cqRequests : Nat
  /-- `git cl set_close` invocations. -/
  closeRequests : Nat
  /-- Set when the `'Tree is clean - no changes detected.'` branch of
  `PrepareRoll` is taken (the `NoOpDetected` state). -/
  noOpLogged : Bool
deriving DecidableEq

/-- `_IsTreeClean`: `git status --porcelain` prints nothing exactly when
the working tree agrees with `HEAD`. -/
def treeClean (st : RepoState) : Bool :=
  !st.baseDirty && st.webrtcEntry == st.headWebrtcEntry &&
    st.libjingleEntry == st.headLibjingleEntry &&
    st.readmeRevision == st.headReadmeRevision

/-- `ROLL_BRANCH_NAME = 'special_webrtc_roll_branch'`. -/
def ROLL_BRANCH_NAME : String := "special_webrtc_roll_branch"

/-- Outcome of one external command under `_RunCommand`: either the new
state, or `sys.exit(code)` fired with the state left at that point. -/
inductive StepResult where
  | ok (st : RepoState)
  | exit (code : Int) (st : RepoState)
deriving DecidableEq

/-- Outcome of a whole entry point (`PrepareRoll`, `Abort`):
`returned code st` models a normal Python `return code`, while
`exited code st` models a `sys.exit(code)` from inside a command or a
parse failure. -/
inductive RunOutcome where
  | returned (code : Int) (st : RepoState)
  | exited (code : Int) (st : RepoState)
deriving DecidableEq

def outcomeCode : RunOutcome → Int
  | .returned c _ => c
  | .exited c _ => c

def outcomeState : RunOutcome → RepoState
  | .returned _ st => st
  | .exited _ st => st

def isReturned : RunOutcome → Bool
  | .returned _ _ => true
  | .exited _ _ => false

def stepIsOk : StepResult → Bool
  | .ok _ => true
  | .exit _ _ => false

def stepState : StepResult → RepoState
  | .ok st => st
  | .exit _ st => st

/-- `git checkout <name>`: switch to an existing branch; fails (exit
status 1, fatal under `_RunCommand`) when the branch does not exist. -/
def gitCheckout (st : RepoState) (name : String) : StepResult :=
  if name ∈ st.branches then .ok { st with currentBranch := name }
  else .exit 1 st

/-- `git checkout -b <name>`: create and switch to a fresh branch; git
refuses (exit status 128) when a branch of that name already exists. -/
def gitCheckoutNewBranch (st : RepoState) (name : String) : StepResult :=
  if name ∈ st.branches then .exit 128 st
  else .ok { st with branches := name :: st.branches, currentBranch := name }

/-- `git branch -D <name>` run fatally: fails when the branch is absent
or is the currently checked-out branch. -/
def gitDeleteBranch (st : RepoState) (name : String) : StepResult :=
  if name ∈ st.branches ∧ name ≠ st.currentBranch then
    .ok { st with branches := st.branches.filter (fun b => b ≠ name) }
  else .exit 1 st

/-- `git branch -D <name>` with `ignore_exit_code=True`: the failure
cases (absent branch — where filtering is the identity — or current
branch) leave the state unchanged. -/
def gitDeleteBranchTolerant (st : RepoState) (name : String) : RepoState :=
  if name = st.currentBranch then st
  else { st with branches := st.branches.filter (fun b => b ≠ name) }

/-- `_DeleteRollBranch`: checkout master, then delete the roll branch
fatally. -/
def _DeleteRollBranch (st : RepoState) : StepResult :=
  match gitCheckout st "master" with
  | .exit c s => .exit c s
  | .ok s1 => gitDeleteBranch s1 ROLL_BRANCH_NAME

/-- `roll-dep <path> <hash>` on one DEPS entry: rewrite the pinned
identifier after the `'@'`, keeping the URL part. -/
def rollDepEntry (entry newHash : String) : String :=
  (splitAtFirstAt entry).1 ++ "@" ++ newHash

/-- The texts returned by the external query commands, per upstream
repository: `gitLogWebrtc r` / `gitLogLibjingle r` is the output of
`git --no-pager log <r> --pretty=full -1` in that dependency's
directory (`r` is the pinned hash for the current version and
`"origin"` for the tip), and `clIssueOutput` is the output of
`git cl issue` after the upload. -/
structure RollEnv where
  gitLogWebrtc : String → String
  gitLogLibjingle : String → String
  clIssueOutput : String

/-- The command-line flags consumed by `AutoRoller`. -/
structure Flags where
  dry_run : Bool
  ignore_checks : Bool
  no_commit : Bool
deriving DecidableEq

/-- `AutoRoller.PrepareRoll`.  `git fetch origin` and `git pull` have no
modelled effect (the model takes the initial state to be the checkout
contents from which DEPS is subsequently read), and the commit step
models `git add --update .` followed by `git commit` by recording the
working-tree values into `HEAD`. -/
def PrepareRoll (env : RollEnv) (flags : Flags) (st0 : RepoState) : RunOutcome :=
  if !flags.ignore_checks && st0.currentBranch != "master" then .returned (-1) st0
  else if !flags.ignore_checks && !treeClean st0 then .returned (-1) st0
  else
    let st1 := gitDeleteBranchTolerant st0 ROLL_BRANCH_NAME
    match gitCheckoutNewBranch st1 ROLL_BRANCH_NAME with
    | .exit c s => .exited c s
    | .ok st2 =>
      let wparts := splitAtFirstAt st2.webrtcEntry
      let lparts := splitAtFirstAt st2.libjingleEntry
      match mkCommitInfo (env.gitLogWebrtc wparts.2) wparts.1 with
      | none => .exited (-1) st2
      | some webrtc_current =>
      match mkCommitInfo (env.gitLogLibjingle lparts.2) lparts.1 with
      | none => .exited (-1) st2
      | some libjingle_current =>
      match mkCommitInfo (env.gitLogWebrtc "origin") "" with
      | none => .exited (-1) st2
      | some webrtc_latest =>
      match mkCommitInfo (env.gitLogLibjingle "origin") "" with
      | none => .exited (-1) st2
      | some libjingle_latest =>
        let st3 := { st2 with
          webrtcEntry := rollDepEntry st2.webrtcEntry webrtc_latest.git_commit,
          libjingleEntry := rollDepEntry st2.libjingleEntry libjingle_latest.git_commit }
        if treeClean st3 then
          match _DeleteRollBranch { st3 with noOpLogged := true } with
          | .exit c s => .exited c s
          | .ok st4 => .returned 0 st4
        else
          let st4 := { st3 with readmeRevision := libjingle_latest.svn_revision }
          let _description :=
            _GenerateCLDescription webrtc_current libjingle_current webrtc_latest libjingle_latest
          let st5 := { st4 with
            commitsMade := st4.commitsMade + 1,
            headWebrtcEntry := st4.webrtcEntry,
            headLibjingleEntry := st4.libjingleEntry,
            headReadmeRevision := st4.readmeRevision,
            baseDirty := false }
          let st6 := { st5 with uploadsMade := st5.uploadsMade + 1 }
          match _GetCLInfo env.clIssueOutput with
          | .error c => .exited c st6
          | .ok _cl_info =>
            if !flags.dry_run && !flags.no_commit then
              let st7 := { st6 with cqRequests := st6.cqRequests + 1 }
              match _DeleteRollBranch st7 with
              | .exit c s => .exited c s
              | .ok st8 => .returned 0 st8
            else
              .returned 0 st6

/-- `AutoRoller.Abort`.  `_GetBranches` reports the active branch and
the branch list; `git cl set_close` is run with its exit code ignored. -/
def Abort (st : RepoState) : RunOutcome :=
  let active := if st.currentBranch = ROLL_BRANCH_NAME then "master" else st.currentBranch
  if ROLL_BRANCH_NAME ∈ st.branches then
    match gitCheckout st ROLL_BRANCH_NAME with
    | .exit c s => .exited c s
    | .ok st1 =>
      let st2 := { st1 with closeRequests := st1.closeRequests + 1 }
      match gitCheckout st2 active with
      | .exit c s => .exited c s
      | .ok st3 =>
        match gitDeleteBranch st3 ROLL_BRANCH_NAME with
        | .exit c s => .exited c s
        | .ok st4 => .returned 0 st4
  else .returned 0 st

/-- The early gates of `main`: the platform test
`sys.platform in ('win32', 'cygwin')` exits with `-1`, then an invalid
(or missing-and-cwd-invalid) Chromium checkout path exits with `-2`;
`some c` is the early error return, `none` means the `AutoRoller` is
constructed and run.  Both gates precede every mutation. -/
def mainEarlyExit (platform : String) (checkoutValid : Bool) : Option Int :=
  if platform = "win32" || platform = "cygwin" then some (-1)
  else if !checkoutValid then some (-2)
  else none

/-! ### Concrete fixtures used by the witness theorems -/

/-- A well-formed `git log --pretty=full -1` output for the pinned
webrtc commit. -/
def descWebrtc : String :=
  "commit abc1234defabc\nCr-Original-Commit-Position: refs/heads/master#4321"

/-- A well-formed log output for the pinned libjingle commit. -/
def descLibjingle : String :=
  "commit fedcba9876543\nCr-Original-Commit-Position: refs/heads/master#8765"

/-- A well-formed log output for a newer webrtc tip. -/
def descWebrtcNew : String :=
  "commit 1112223334445\nCr-Original-Commit-Position: refs/heads/master#4400"

/-- A clean checkout on master whose pins match `descWebrtc` /
`descLibjingle`. -/
def cleanCheckout : RepoState :=
  { currentBranch := "master"
    branches := ["master"]
    baseDirty := false
    webrtcEntry := "https://w.example/w.git@abc1234defabc"
    libjingleEntry := "https://l.example/l.git@fedcba9876543"
    headWebrtcEntry := "https://w.example/w.git@abc1234defabc"
    headLibjingleEntry := "https://l.example/l.git@fedcba9876543"
    readmeRevision := "8765"
    headReadmeRevision := "8765"
    commitsMade := 0
    uploadsMade := 0
    cqRequests := 0
    closeRequests := 0
    noOpLogged := false }

/-- Both upstreams report exactly the pinned commits as their tips. -/
def envNoOp : RollEnv :=
  { gitLogWebrtc := fun _ => descWebrtc
    gitLogLibjingle := fun _ => descLibjingle
    clIssueOutput := "Issue number: 123 (https://host/path)" }

/-- The webrtc upstream has advanced to `descWebrtcNew`. -/
def envOneAhead : RollEnv :=
  { gitLogWebrtc := fun r => if r = "origin" then descWebrtcNew else descWebrtc
    gitLogLibjingle := fun _ => descLibjingle
    clIssueOutput := "Issue number: 123 (https://host/path)" }

/-- The webrtc log output carries no commit-position line, so the
svn-revision parse fails. -/
def envBadLog : RollEnv :=
  { gitLogWebrtc := fun _ => "garbage output"
    gitLogLibjingle := fun _ => descLibjingle
    clIssueOutput := "Issue number: 123 (https://host/path)" }

/-- The webrtc upstream has advanced, but the review tool's reply lacks
the parenthesized URL, so the issue-number parse fails after the commit
and the upload. -/
def envBadIssue : RollEnv :=
  { gitLogWebrtc := fun r => if r = "origin" then descWebrtcNew else descWebrtc
    gitLogLibjingle := fun _ => descLibjingle
    clIssueOutput := "Issue number: 123 https://host/path" }

def defaultFlags : Flags := ⟨false, false, false⟩

def dryRunFlags : Flags := ⟨true, false, false⟩

/-! ### Helper lemmas -/

theorem splitAtLastSlash_of_no_slash {ds : List Char} (h : '/' ∉ ds) :
    splitAtLastSlash ds = none := by
  induction ds with
  | nil => rfl
  | cons c rest ih =>
      have hc : c ≠ '/' := fun hc => h (hc ▸ List.mem_cons_self c rest)
      have hrest : '/' ∉ rest := fun hr => h (List.mem_cons_of_mem c hr)
      simp [splitAtLastSlash, ih hrest, hc]

theorem splitAtLastSlash_append (cs : List Char) {ds : List Char} (h : '/' ∉ ds) :
    splitAtLastSlash (cs ++ '/' :: ds) = some (cs, ds) := by
  induction cs with
  | nil => simp [splitAtLastSlash, splitAtLastSlash_of_no_slash h]
  | cons c rest ih => simp [splitAtLastSlash, ih]

theorem pyFindChar_spec {cs : List Char} {c : Char} (h : c ∈ cs) :
    ∃ n : Nat, pyFindChar cs c = (n : Int) ∧ cs.take n ++ c :: cs.drop (n + 1) = cs := by
  induction cs with
  | nil => cases h
  | cons x rest ih =>
      by_cases hx : x = c
      · exact ⟨0, by simp [pyFindChar, hx], by simp [hx]⟩
      · have hmem : c ∈ rest := by
          cases h with
          | head => exact absurd rfl hx
          | tail _ h => exact h
        obtain ⟨n, hn, hrec⟩ := ih hmem
        refine ⟨n + 1, ?_, ?_⟩
        · have : ((n : Int)) ≠ -1 := by omega
          simp [pyFindChar, hx, hn, this]
        · simpa [List.take_succ_cons, List.drop_succ_cons] using congrArg (x :: ·) hrec

theorem splitAtFirstAt_recon {e : String} (h : '@' ∈ e.data) :
    (splitAtFirstAt e).1 ++ "@" ++ (splitAtFirstAt e).2 = e := by
  obtain ⟨n, hn, hrec⟩ := pyFindChar_spec h
  have hne : ((n : Int)) ≠ -1 := by omega
  apply String.ext
  simp only [splitAtFirstAt, hn, hne, if_false, String.data_append]
  simpa [Int.toNat_natCast] using hrec

theorem rollDepEntry_self {e h : String} (hat : '@' ∈ e.data)
    (hpin : h = (splitAtFirstAt e).2) : rollDepEntry e h = e := by
  rw [rollDepEntry, hpin, splitAtFirstAt_recon hat]

/-! ### Claim theorems: pure parsing facts -/

/-- C4: parsing the review tool's reply `Issue number: 123 (https://host/path)`
yields issue 123, url `https://host/path` and rietveld host `host`, and a
reply missing the parenthesized URL is a fatal exit with status `-1`
rather than any fallback value. -/
theorem c4_cl_issue_parse :
    _GetCLInfo "Issue number: 123 (https://host/path)" =
      Except.ok ⟨123, "https://host/path", "host"⟩ ∧
    _GetCLInfo "Issue number: 123 https://host/path" = Except.error (-1) :=
  ⟨rfl, rfl⟩

/-- C9: the rietveld-host regex is greedy, so for a URL whose part after
the scheme contains a `'/'`, the extracted host (group 1) is everything
between the scheme and the *last* `'/'`, the remainder being group 2. -/
theorem c9_rietveld_host_greedy (rest last : String) (h : '/' ∉ last.data) :
    matchRietveldUrl ("https://" ++ rest ++ "/" ++ last) = some (rest, last) := by
  have hdata : ("https://" ++ rest ++ "/" ++ last).data
      = ("https://" : String).data ++ (rest.data ++ '/' :: last.data) := by
    simp [String.data_append]
  have hpre : (("https://" : String)).data.isPrefixOf
      ("https://" ++ rest ++ "/" ++ last).data = true := by
    rw [hdata, List.isPrefixOf_iff_prefix]
    exact List.prefix_append _ _
  have hdrop : ("https://" ++ rest ++ "/" ++ last).data.drop 8
      = rest.data ++ '/' :: last.data := by
    rw [hdata]
    have hlen : (("https://" : String).data).length = 8 := rfl
    have hdl := List.drop_left ("https://" : String).data (rest.data ++ '/' :: last.data)
    rw [hlen] at hdl
    exact hdl
  simp only [matchRietveldUrl, hpre, if_true, hdrop, splitAtLastSlash_append rest.data h]
  rfl

/-- C9 witness: `https://host/a/b` yields host `host/a`, not `host`. -/
theorem c9_rietveld_host_greedy_witness :
    ('/' ∉ ("b" : String).data) ∧ matchRietveldUrl "https://host/a/b" = some ("host/a", "b") := by
  have h := c9_rietveld_host_greedy "host/a" "b" (by decide)
  have e : ("https://" ++ "host/a" ++ "/" ++ "b" : String) = "https://host/a/b" := by decide
  exact ⟨by decide, by rw [← e]; exact h⟩

/-- C10: when several lines of the fetched commit metadata match the
commit-position pattern, the parser scans the lines in reverse order and
returns the number from the bottom-most matching line `b`, not from an
earlier matching line `a`. -/
theorem c10_bottom_most_match (d : String) (pre mid suf : List String) (a b ra rb : String)
    (hd : pySplitlines d = pre ++ a :: (mid ++ b :: suf))
    (_ha : matchGitSvnId (pyStrip a) = some ra)
    (hb : matchGitSvnId (pyStrip b) = some rb)
    (hsuf : ∀ l ∈ suf, matchGitSvnId (pyStrip l) = none) :
    _ParseSvnRevisionFromGitDescription d = some rb := by
  have hsufnone : suf.reverse.findSome? (fun line => matchGitSvnId (pyStrip line)) = none :=
    List.findSome?_eq_none_iff.mpr (by intro x hx; exact hsuf x (by simpa using hx))
  rw [_ParseSvnRevisionFromGitDescription, hd, parseSvnLines]
  simp [List.reverse_append, List.findSome?_append, hsufnone, hb, List.findSome?_cons]

/-- C10 witness: a description with two matching commit-position lines
parses to the number on the bottom-most one. -/
theorem c10_bottom_most_match_witness :
    pySplitlines "Cr-Original-Commit-Position: refs#111\nCr-Original-Commit-Position: refs#222"
      = [] ++ "Cr-Original-Commit-Position: refs#111" ::
        ([] ++ "Cr-Original-Commit-Position: refs#222" :: []) ∧
    _ParseSvnRevisionFromGitDescription
      "Cr-Original-Commit-Position: refs#111\nCr-Original-Commit-Position: refs#222"
      = some "222" := by
  refine ⟨by decide, ?_⟩
  exact c10_bottom_most_match _ [] [] []
    "Cr-Original-Commit-Position: refs#111" "Cr-Original-Commit-Position: refs#222"
    "111" "222" (by decide) (by decide) (by decide) (by intro l hl; cases hl)

/-! ### Claim theorems: the platform gate -/

/-- C8 counterexample: `freebsd9` is neither a Linux, Mac nor Windows
platform identifier, yet `main`'s platform gate does not reject it — the
code only rejects `win32` and `cygwin`, contradicting the claim that
every non-Linux, non-Mac platform terminates with an error. -/
theorem c8_counterexample :
    mainEarlyExit "freebsd9" true = none ∧
    "freebsd9" ≠ "linux2" ∧ "freebsd9" ≠ "linux" ∧ "freebsd9" ≠ "darwin" ∧
    "freebsd9" ≠ "win32" ∧ "freebsd9" ≠ "cygwin" := by
  refine ⟨by decide, by decide, by decide, by decide, by decide, by decide⟩

/-- C8 (amended): `main` terminates immediately with `-1` exactly when
the platform identifier is `win32` or `cygwin` (the Windows family);
every other platform identifier passes the platform gate. -/
theorem c8_platform_gate (p : String) (v : Bool) :
    mainEarlyExit p v = some (-1) ↔ (p = "win32" ∨ p = "cygwin") := by
  by_cases h1 : p = "win32"
  · simp [mainEarlyExit, h1]
  · by_cases h2 : p = "cygwin"
    · simp [mainEarlyExit, h2]
    · simp only [mainEarlyExit, h1, h2, decide_False, Bool.or_false, Bool.false_or]
      cases v <;> simp

/-! ### Claim theorems: CL description shape -/

theorem pyTruthy_empty : pyTruthy "" = false := rfl

theorem pyTruthy_append_of_left {a : String} (b : String) (h : pyTruthy a = true) :
    pyTruthy (a ++ b) = true := by
  have ha : a.data ≠ [] := by
    intro he
    rw [pyTruthy, he] at h
    simp at h
  rw [pyTruthy, String.data_append]
  cases hd : a.data with
  | nil => exact absurd hd ha
  | cons c l => rfl

/-- The description when neither dependency changed (unreachable in a
committed roll, but well defined). -/
theorem genDesc_no_change {wc lc wn ln : CommitInfo}
    (hw : wc.git_commit = wn.git_commit) (hl : lc.git_commit = ln.git_commit) :
    _GenerateCLDescription wc lc wn ln = "Roll " ++ "\n\n" ++ "\nTBR=" := by
  simp [_GenerateCLDescription, hw, hl, pyTruthy_empty]

/-- The description when only webrtc changed: no libjingle section. -/
theorem genDesc_webrtc_only {wc lc wn ln : CommitInfo}
    (hw : wc.git_commit ≠ wn.git_commit) (hl : lc.git_commit = ln.git_commit) :
    _GenerateCLDescription wc lc wn ln =
      "Roll " ++ ("WebRTC " ++ wc.svn_revision ++ ":" ++ wn.svn_revision) ++ "\n\n" ++
      ("WebRTC " ++ wc.svn_revision ++ ":" ++ wn.svn_revision) ++ "\n" ++ "Changes: " ++
      (wc.git_repo_url ++ "/+log/" ++ strTake wc.git_commit 7 ++ ".." ++
        strTake wn.git_commit 7) ++ "\n\n" ++ "\nTBR=" := by
  have hws : pyTruthy ("WebRTC " ++ (wc.svn_revision ++ (":" ++ wn.svn_revision))) = true :=
    pyTruthy_append_of_left _ (by decide)
  simp [_GenerateCLDescription, GetChangeLogURL, hw, hl, hws, pyTruthy_empty,
    String.append_empty, String.append_assoc]

/-- The description when only libjingle changed: no webrtc section and
no delimiter. -/
theorem genDesc_libjingle_only {wc lc wn ln : CommitInfo}
    (hw : wc.git_commit = wn.git_commit) (hl : lc.git_commit ≠ ln.git_commit) :
    _GenerateCLDescription wc lc wn ln =
      "Roll " ++ ("Libjingle " ++ lc.svn_revision ++ ":" ++ ln.svn_revision) ++ "\n\n" ++
      ("Libjingle " ++ lc.svn_revision ++ ":" ++ ln.svn_revision) ++ "\n" ++ "Changes: " ++
      (lc.git_repo_url ++ "/+log/" ++ strTake lc.git_commit 7 ++ ".." ++
        strTake ln.git_commit 7) ++ "\n" ++ "\nTBR=" := by
  have hls : pyTruthy ("Libjingle " ++ (lc.svn_revision ++ (":" ++ ln.svn_revision))) = true :=
    pyTruthy_append_of_left _ (by decide)
  simp [_GenerateCLDescription, GetChangeLogURL, hw, hl, hls, pyTruthy_empty,
    String.append_empty, String.empty_append, String.append_assoc]

/-- The description when both dependencies changed. -/
theorem genDesc_both {wc lc wn ln : CommitInfo}
    (hw : wc.git_commit ≠ wn.git_commit) (hl : lc.git_commit ≠ ln.git_commit) :
    _GenerateCLDescription wc lc wn ln =
      "Roll " ++ ("WebRTC " ++ wc.svn_revision ++ ":" ++ wn.svn_revision) ++ ", " ++
      ("Libjingle " ++ lc.svn_revision ++ ":" ++ ln.svn_revision) ++ "\n\n" ++
      ("WebRTC " ++ wc.svn_revision ++ ":" ++ wn.svn_revision) ++ "\n" ++ "Changes: " ++
      (wc.git_repo_url ++ "/+log/" ++ strTake wc.git_commit 7 ++ ".." ++
        strTake wn.git_commit 7) ++ "\n\n" ++
      ("Libjingle " ++ lc.svn_revision ++ ":" ++ ln.svn_revision) ++ "\n" ++ "Changes: " ++
      (lc.git_repo_url ++ "/+log/" ++ strTake lc.git_commit 7 ++ ".." ++
        strTake ln.git_commit 7) ++ "\n" ++ "\nTBR=" := by
  have hws : pyTruthy ("WebRTC " ++ (wc.svn_revision ++ (":" ++ wn.svn_revision))) = true :=
    pyTruthy_append_of_left _ (by decide)
  have hls : pyTruthy ("Libjingle " ++ (lc.svn_revision ++ (":" ++ ln.svn_revision))) = true :=
    pyTruthy_append_of_left _ (by decide)
  simp [_GenerateCLDescription, GetChangeLogURL, hw, hl, hws, hls, String.append_assoc]

/-- C3: the generated change description omits a dependency's section
entirely when its commit identifier is unchanged (the exact unchanged
shapes are given), contains the `old:new` sequence-number line followed
by a changelog URL of the exact form
`repoURL/+log/old7..new7` for each changed dependency, and always ends
with the trailing `TBR=` reviewer placeholder. -/
theorem c3_description_shape (wc lc wn ln : CommitInfo) :
    (∃ p : String, _GenerateCLDescription wc lc wn ln = p ++ "\nTBR=") ∧
    (wc.git_commit ≠ wn.git_commit →
      ∃ p q : String, _GenerateCLDescription wc lc wn ln =
        p ++ ("WebRTC " ++ wc.svn_revision ++ ":" ++ wn.svn_revision ++ "\n" ++ "Changes: " ++
          (wc.git_repo_url ++ "/+log/" ++ strTake wc.git_commit 7 ++ ".." ++
            strTake wn.git_commit 7) ++ "\n\n") ++ q) ∧
    (lc.git_commit ≠ ln.git_commit →
      ∃ p q : String, _GenerateCLDescription wc lc wn ln =
        p ++ ("Libjingle " ++ lc.svn_revision ++ ":" ++ ln.svn_revision ++ "\n" ++ "Changes: " ++
          (lc.git_repo_url ++ "/+log/" ++ strTake lc.git_commit 7 ++ ".." ++
            strTake ln.git_commit 7) ++ "\n") ++ q) ∧
    (wc.git_commit = wn.git_commit → lc.git_commit = ln.git_commit →
      _GenerateCLDescription wc lc wn ln = "Roll " ++ "\n\n" ++ "\nTBR=") ∧
    (wc.git_commit = wn.git_commit → lc.git_commit ≠ ln.git_commit →
      _GenerateCLDescription wc lc wn ln =
        "Roll " ++ ("Libjingle " ++ lc.svn_revision ++ ":" ++ ln.svn_revision) ++ "\n\n" ++
        ("Libjingle " ++ lc.svn_revision ++ ":" ++ ln.svn_revision) ++ "\n" ++ "Changes: " ++
        (lc.git_repo_url ++ "/+log/" ++ strTake lc.git_commit 7 ++ ".." ++
          strTake ln.git_commit 7) ++ "\n" ++ "\nTBR=") ∧
    (wc.git_commit ≠ wn.git_commit → lc.git_commit = ln.git_commit →
      _GenerateCLDescription wc lc wn ln =
        "Roll " ++ ("WebRTC " ++ wc.svn_revision ++ ":" ++ wn.svn_revision) ++ "\n\n" ++
        ("WebRTC " ++ wc.svn_revision ++ ":" ++ wn.svn_revision) ++ "\n" ++ "Changes: " ++
        (wc.git_repo_url ++ "/+log/" ++ strTake wc.git_commit 7 ++ ".." ++
          strTake wn.git_commit 7) ++ "\n\n" ++ "\nTBR=") := by
  refine ⟨⟨_, rfl⟩, ?_, ?_, fun hw hl => genDesc_no_change hw hl,
    fun hw hl => genDesc_libjingle_only hw hl, fun hw hl => genDesc_webrtc_only hw hl⟩
  · intro hw
    by_cases hl : lc.git_commit = ln.git_commit
    · rw [genDesc_webrtc_only hw hl]
      refine ⟨"Roll " ++ ("WebRTC " ++ wc.svn_revision ++ ":" ++ wn.svn_revision) ++ "\n\n",
        "\nTBR=", ?_⟩
      simp [String.append_assoc]
    · rw [genDesc_both hw hl]
      refine ⟨"Roll " ++ ("WebRTC " ++ wc.svn_revision ++ ":" ++ wn.svn_revision) ++ ", " ++
          ("Libjingle " ++ lc.svn_revision ++ ":" ++ ln.svn_revision) ++ "\n\n",
        ("Libjingle " ++ lc.svn_revision ++ ":" ++ ln.svn_revision) ++ "\n" ++ "Changes: " ++
          (lc.git_repo_url ++ "/+log/" ++ strTake lc.git_commit 7 ++ ".." ++
            strTake ln.git_commit 7) ++ "\n" ++ "\nTBR=", ?_⟩
      simp [String.append_assoc]
  · intro hl
    by_cases hw : wc.git_commit = wn.git_commit
    · rw [genDesc_libjingle_only hw hl]
      refine ⟨"Roll " ++ ("Libjingle " ++ lc.svn_revision ++ ":" ++ ln.svn_revision) ++ "\n\n",
        "\nTBR=", ?_⟩
      simp [String.append_assoc]
    · rw [genDesc_both hw hl]
      refine ⟨"Roll " ++ ("WebRTC " ++ wc.svn_revision ++ ":" ++ wn.svn_revision) ++ ", " ++
          ("Libjingle " ++ lc.svn_revision ++ ":" ++ ln.svn_revision) ++ "\n\n" ++
          ("WebRTC " ++ wc.svn_revision ++ ":" ++ wn.svn_revision) ++ "\n" ++ "Changes: " ++
          (wc.git_repo_url ++ "/+log/" ++ strTake wc.git_commit 7 ++ ".." ++
            strTake wn.git_commit 7) ++ "\n\n",
        "\nTBR=", ?_⟩
      simp [String.append_assoc]

/-- C3 witness: a roll where only webrtc changed produces the
webrtc-only description, with no libjingle section. -/
theorem c3_description_shape_witness :
    ((CommitInfo.mk "10" "aaaaAAAA1" "urlw").git_commit ≠
      (CommitInfo.mk "12" "bbbbBBBB2" "x").git_commit) ∧
    _GenerateCLDescription ⟨"10", "aaaaAAAA1", "urlw"⟩ ⟨"20", "cccc", "urll"⟩
        ⟨"12", "bbbbBBBB2", "x"⟩ ⟨"20", "cccc", "urll"⟩ =
      "Roll " ++ ("WebRTC " ++ "10" ++ ":" ++ "12") ++ "\n\n" ++
      ("WebRTC " ++ "10" ++ ":" ++ "12") ++ "\n" ++ "Changes: " ++
      ("urlw" ++ "/+log/" ++ strTake "aaaaAAAA1" 7 ++ ".." ++ strTake "bbbbBBBB2" 7) ++
      "\n\n" ++ "\nTBR=" :=
  ⟨by decide, (c3_description_shape _ _ _ _).2.2.2.2.2 (by decide) rfl⟩

/-! ### Claim theorems: Abort -/

theorem abort_present {st : RepoState} (hmem : ROLL_BRANCH_NAME ∈ st.branches)
    (hact : (if st.currentBranch = ROLL_BRANCH_NAME then "master" else st.currentBranch)
      ∈ st.branches) :
    Abort st = .returned 0 { st with
      currentBranch := if st.currentBranch = ROLL_BRANCH_NAME then "master" else st.currentBranch,
      branches := st.branches.filter (fun b => b ≠ ROLL_BRANCH_NAME),
      closeRequests := st.closeRequests + 1 } := by
  have hactne : (if st.currentBranch = ROLL_BRANCH_NAME then "master" else st.currentBranch)
      ≠ ROLL_BRANCH_NAME := by
    by_cases hcur : st.currentBranch = ROLL_BRANCH_NAME
    · simp only [hcur, if_true]
      decide
    · rw [if_neg hcur]
      exact hcur
  simp [Abort, gitCheckout, gitDeleteBranch, hmem, hact, Ne.symm hactne]

theorem abort_absent_fails {st : RepoState} (hmem : ROLL_BRANCH_NAME ∈ st.branches)
    (hact : (if st.currentBranch = ROLL_BRANCH_NAME then "master" else st.currentBranch)
      ∉ st.branches) :
    isReturned (Abort st) = false := by
  simp [Abort, gitCheckout, hmem, hact, isReturned]

/-- C5: `Abort` is idempotent — when the reserved roll branch does not
exist (in particular after any successful `Abort`), `Abort` performs no
branch switch, no review close and no branch deletion, leaving the
state untouched and returning success `0`. -/
theorem c5_abort_idempotent :
    (∀ st : RepoState, ROLL_BRANCH_NAME ∉ st.branches →
      Abort st = .returned 0 st) ∧
    (∀ (st st' : RepoState) (n : Int), Abort st = .returned n st' →
      Abort st' = .returned 0 st') := by
  have habs : ∀ st : RepoState, ROLL_BRANCH_NAME ∉ st.branches →
      Abort st = .returned 0 st := by
    intro st h
    simp [Abort, h]
  refine ⟨habs, ?_⟩
  intro st st' n h
  by_cases hmem : ROLL_BRANCH_NAME ∈ st.branches
  · by_cases hact : (if st.currentBranch = ROLL_BRANCH_NAME then "master" else st.currentBranch)
        ∈ st.branches
    · rw [abort_present hmem hact] at h
      injection h with h1 h2
      subst h2
      apply habs
      simp [List.mem_filter]
    · have hfail := abort_absent_fails hmem hact
      rw [h] at hfail
      simp [isReturned] at hfail
  · rw [habs st hmem] at h
    injection h with h1 h2
    subst h2
    exact habs st hmem

/-- C5 witness: on a checkout without the roll branch, `Abort` is a
successful no-op. -/
theorem c5_abort_idempotent_witness :
    ROLL_BRANCH_NAME ∉ cleanCheckout.branches ∧
    Abort cleanCheckout = .returned 0 cleanCheckout :=
  ⟨by decide, c5_abort_idempotent.1 cleanCheckout (by decide)⟩

/-! ### Claim theorems: single roll branch -/

theorem deleteRollBranch_ok_count {st st' : RepoState} (h : _DeleteRollBranch st = .ok st') :
    st'.branches.count ROLL_BRANCH_NAME = 0 := by
  have hner : ¬(ROLL_BRANCH_NAME = "master") := by decide
  by_cases hm : "master" ∈ st.branches
  · by_cases hd : ROLL_BRANCH_NAME ∈ st.branches
    · simp [_DeleteRollBranch, gitCheckout, gitDeleteBranch, hm, hd, hner] at h
      subst h
      rw [List.count_eq_zero]
      simp [List.mem_filter]
    · simp [_DeleteRollBranch, gitCheckout, gitDeleteBranch, hm, hd] at h
  · simp [_DeleteRollBranch, gitCheckout, hm] at h

theorem prepareRoll_success_branch_bound {env : RollEnv} {flags : Flags} {st st' : RepoState}
    (h : PrepareRoll env flags st = .returned 0 st') :
    st'.branches.count ROLL_BRANCH_NAME ≤ 1 := by
  simp only [PrepareRoll] at h
  split at h
  · injection h with h1 h2
    exact absurd h1 (by decide)
  split at h
  · injection h with h1 h2
    exact absurd h1 (by decide)
  split at h
  · simp at h
  next st2 heq =>
    have hcount2 : st2.branches.count ROLL_BRANCH_NAME = 1 := by
      simp only [gitCheckoutNewBranch] at heq
      split at heq
      · cases heq
      next hmem =>
        injection heq with h2
        rw [← h2]
        simp [List.count_cons_self, List.count_eq_zero.mpr hmem]
    split at h
    · simp at h
    split at h
    · simp at h
    split at h
    · simp at h
    split at h
    · simp at h
    split at h
    · -- no-op path: the roll branch is deleted
      split at h
      · simp at h
      next st4 heq4 =>
        injection h with h1 h2
        rw [← h2]
        rw [deleteRollBranch_ok_count heq4]
        omega
    · -- committed path
      split at h
      · simp at h
      split at h
      · -- commit-queue path: the roll branch is deleted
        split at h
        · simp at h
        next st8 heq8 =>
          injection h with h1 h2
          rw [← h2]
          rw [deleteRollBranch_ok_count heq8]
          omega
      · -- dry-run / no-commit path: the created branch remains
        injection h with h1 h2
        rw [← h2]
        simpa using Nat.le_of_eq hcount2

/-- C6: at most one reserved roll branch at a time — `PrepareRoll`
deletes any pre-existing branch of the reserved name (tolerating its
absence) before `git checkout -b`, so the creation step always succeeds
from a foreign branch and yields exactly one copy of the reserved name;
moreover every successful `PrepareRoll` leaves at most one copy. -/
theorem c6_single_roll_branch :
    (∀ st : RepoState, st.currentBranch ≠ ROLL_BRANCH_NAME →
      stepIsOk (gitCheckoutNewBranch (gitDeleteBranchTolerant st ROLL_BRANCH_NAME)
        ROLL_BRANCH_NAME) = true ∧
      (stepState (gitCheckoutNewBranch (gitDeleteBranchTolerant st ROLL_BRANCH_NAME)
        ROLL_BRANCH_NAME)).branches.count ROLL_BRANCH_NAME = 1) ∧
    (∀ (env : RollEnv) (flags : Flags) (st st' : RepoState),
      PrepareRoll env flags st = .returned 0 st' →
      st'.branches.count ROLL_BRANCH_NAME ≤ 1) := by
  constructor
  · intro st hne
    have hcur : ¬(ROLL_BRANCH_NAME = st.currentBranch) := fun hc => hne hc.symm
    have hnomem : ROLL_BRANCH_NAME ∉
        (st.branches.filter (fun b => b ≠ ROLL_BRANCH_NAME)) := by
      simp [List.mem_filter]
    constructor
    · simp [gitDeleteBranchTolerant, gitCheckoutNewBranch, hcur, hnomem, stepIsOk]
    · simp [gitDeleteBranchTolerant, gitCheckoutNewBranch, hcur, hnomem, stepState,
        List.count_cons_self]
      rw [List.count_eq_zero]
      simp [List.mem_filter]
  · intro env flags st st' h
    exact prepareRoll_success_branch_bound h

/-- C6 witness: from a clean checkout on master, the delete-then-create
step succeeds and leaves exactly one reserved branch. -/
theorem c6_single_roll_branch_witness :
    cleanCheckout.currentBranch ≠ ROLL_BRANCH_NAME ∧
    (stepIsOk (gitCheckoutNewBranch (gitDeleteBranchTolerant cleanCheckout ROLL_BRANCH_NAME)
      ROLL_BRANCH_NAME) = true ∧
    (stepState (gitCheckoutNewBranch (gitDeleteBranchTolerant cleanCheckout ROLL_BRANCH_NAME)
      ROLL_BRANCH_NAME)).branches.count ROLL_BRANCH_NAME = 1) :=
  ⟨by decide, c6_single_roll_branch.1 cleanCheckout (by decide)⟩

/-! ### Claim theorems: the no-op roll -/

theorem treeClean_mk (cb : String) (bs : List String) (bd : Bool)
    (we le hw hl rr hr : String) (cm up cq cl : Nat) (no : Bool) :
    treeClean ⟨cb, bs, bd, we, le, hw, hl, rr, hr, cm, up, cq, cl, no⟩ =
      (!bd && (we == hw) && (le == hl) && (rr == hr)) := rfl

theorem prepareRoll_noop_run (env : RollEnv) (flags : Flags) (st0 : RepoState)
    (wc lc wl ll : CommitInfo)
    (hbr : st0.currentBranch = "master")
    (hclean : treeClean st0 = true)
    (hmaster : "master" ∈ st0.branches)
    (hwat : '@' ∈ st0.webrtcEntry.data)
    (hlat : '@' ∈ st0.libjingleEntry.data)
    (hwc : mkCommitInfo (env.gitLogWebrtc (splitAtFirstAt st0.webrtcEntry).2)
      (splitAtFirstAt st0.webrtcEntry).1 = some wc)
    (hlc : mkCommitInfo (env.gitLogLibjingle (splitAtFirstAt st0.libjingleEntry).2)
      (splitAtFirstAt st0.libjingleEntry).1 = some lc)
    (hwl : mkCommitInfo (env.gitLogWebrtc "origin") "" = some wl)
    (hll : mkCommitInfo (env.gitLogLibjingle "origin") "" = some ll)
    (hwpin : wl.git_commit = (splitAtFirstAt st0.webrtcEntry).2)
    (hlpin : ll.git_commit = (splitAtFirstAt st0.libjingleEntry).2) :
    PrepareRoll env flags st0 = .returned 0 { st0 with
      currentBranch := "master",
      branches := st0.branches.filter (fun b => b ≠ ROLL_BRANCH_NAME),
      noOpLogged := true } := by
  have hrw : rollDepEntry st0.webrtcEntry wl.git_commit = st0.webrtcEntry :=
    rollDepEntry_self hwat hwpin
  have hrl : rollDepEntry st0.libjingleEntry ll.git_commit = st0.libjingleEntry :=
    rollDepEntry_self hlat hlpin
  have hnm : ¬(ROLL_BRANCH_NAME = "master") := by decide
  have hmn : ¬("master" = ROLL_BRANCH_NAME) := by decide
  have hc := hclean
  rw [treeClean] at hc
  simp only [Bool.and_eq_true, Bool.not_eq_true', beq_iff_eq] at hc
  obtain ⟨⟨⟨h1, h2⟩, h3⟩, h4⟩ := hc
  have hb2 : (st0.webrtcEntry == st0.headWebrtcEntry) = true := by simp [h2]
  have hb3 : (st0.libjingleEntry == st0.headLibjingleEntry) = true := by simp [h3]
  have hb4 : (st0.readmeRevision == st0.headReadmeRevision) = true := by simp [h4]
  simp [PrepareRoll, gitDeleteBranchTolerant, gitCheckoutNewBranch, _DeleteRollBranch,
    gitCheckout, gitDeleteBranch, treeClean_mk, hbr, hclean, hwc, hlc, hwl, hll, hrw, hrl,
    hnm, hmn, hmaster, h1, hb2, hb3, hb4, List.mem_filter, List.filter_filter]

/-- C1: when both pinned identifiers already equal the upstream tips (so
the tree is clean after the pin rewrites), `PrepareRoll` reaches the
no-op branch (`noOpLogged`), returns success `0` normally, the reserved
roll branch is absent afterward, and no commit, no upload and no
commit-queue request happen. -/
theorem c1_noop_roll (env : RollEnv) (flags : Flags) (st0 : RepoState)
    (wc lc wl ll : CommitInfo)
    (hbr : st0.currentBranch = "master")
    (hclean : treeClean st0 = true)
    (hmaster : "master" ∈ st0.branches)
    (hwat : '@' ∈ st0.webrtcEntry.data)
    (hlat : '@' ∈ st0.libjingleEntry.data)
    (hwc : mkCommitInfo (env.gitLogWebrtc (splitAtFirstAt st0.webrtcEntry).2)
      (splitAtFirstAt st0.webrtcEntry).1 = some wc)
    (hlc : mkCommitInfo (env.gitLogLibjingle (splitAtFirstAt st0.libjingleEntry).2)
      (splitAtFirstAt st0.libjingleEntry).1 = some lc)
    (hwl : mkCommitInfo (env.gitLogWebrtc "origin") "" = some wl)
    (hll : mkCommitInfo (env.gitLogLibjingle "origin") "" = some ll)
    (hwpin : wl.git_commit = (splitAtFirstAt st0.webrtcEntry).2)
    (hlpin : ll.git_commit = (splitAtFirstAt st0.libjingleEntry).2) :
    isReturned (PrepareRoll env flags st0) = true ∧
    outcomeCode (PrepareRoll env flags st0) = 0 ∧
    ROLL_BRANCH_NAME ∉ (outcomeState (PrepareRoll env flags st0)).branches ∧
    (outcomeState (PrepareRoll env flags st0)).commitsMade = st0.commitsMade ∧
    (outcomeState (PrepareRoll env flags st0)).uploadsMade = st0.uploadsMade ∧
    (outcomeState (PrepareRoll env flags st0)).cqRequests = st0.cqRequests ∧
    (outcomeState (PrepareRoll env flags st0)).noOpLogged = true := by
  rw [prepareRoll_noop_run env flags st0 wc lc wl ll hbr hclean hmaster hwat hlat
    hwc hlc hwl hll hwpin hlpin]
  refine ⟨rfl, rfl, ?_, rfl, rfl, rfl, rfl⟩
  simp [outcomeState, List.mem_filter]

/-- C1 witness: on a clean checkout whose pins match the upstream tips,
`PrepareRoll` is a successful no-op leaving no roll branch. -/
theorem c1_noop_roll_witness :
    treeClean cleanCheckout = true ∧
    (isReturned (PrepareRoll envNoOp defaultFlags cleanCheckout) = true ∧
    outcomeCode (PrepareRoll envNoOp defaultFlags cleanCheckout) = 0 ∧
    ROLL_BRANCH_NAME ∉ (outcomeState (PrepareRoll envNoOp defaultFlags cleanCheckout)).branches ∧
    (outcomeState (PrepareRoll envNoOp defaultFlags cleanCheckout)).commitsMade =
      cleanCheckout.commitsMade ∧
    (outcomeState (PrepareRoll envNoOp defaultFlags cleanCheckout)).uploadsMade =
      cleanCheckout.uploadsMade ∧
    (outcomeState (PrepareRoll envNoOp defaultFlags cleanCheckout)).cqRequests =
      cleanCheckout.cqRequests ∧
    (outcomeState (PrepareRoll envNoOp defaultFlags cleanCheckout)).noOpLogged = true) :=
  ⟨by decide, c1_noop_roll envNoOp defaultFlags cleanCheckout
    ⟨"4321", "abc1234defabc", "https://w.example/w.git"⟩
    ⟨"8765", "fedcba9876543", "https://l.example/l.git"⟩
    ⟨"4321", "abc1234defabc", ""⟩ ⟨"8765", "fedcba9876543", ""⟩
    (by decide) (by decide) (by decide) (by decide) (by decide)
    (by decide) (by decide) (by decide) (by decide) (by decide) (by decide)⟩

/-! ### Claim theorems: dry-run keeps the branch -/

theorem prepareRoll_dryrun_run (env : RollEnv) (flags : Flags) (st0 : RepoState)
    (wc lc wl ll : CommitInfo) (cl : CLInfo)
    (hbr : st0.currentBranch = "master")
    (hclean : treeClean st0 = true)
    (hwc : mkCommitInfo (env.gitLogWebrtc (splitAtFirstAt st0.webrtcEntry).2)
      (splitAtFirstAt st0.webrtcEntry).1 = some wc)
    (hlc : mkCommitInfo (env.gitLogLibjingle (splitAtFirstAt st0.libjingleEntry).2)
      (splitAtFirstAt st0.libjingleEntry).1 = some lc)
    (hwl : mkCommitInfo (env.gitLogWebrtc "origin") "" = some wl)
    (hll : mkCommitInfo (env.gitLogLibjingle "origin") "" = some ll)
    (hchange : ¬(rollDepEntry st0.webrtcEntry wl.git_commit = st0.headWebrtcEntry ∧
      rollDepEntry st0.libjingleEntry ll.git_commit = st0.headLibjingleEntry))
    (hcl : _GetCLInfo env.clIssueOutput = .ok cl)
    (hflag : flags.dry_run = true ∨ flags.no_commit = true) :
    PrepareRoll env flags st0 = .returned 0 { st0 with
      currentBranch := ROLL_BRANCH_NAME,
      branches := ROLL_BRANCH_NAME :: st0.branches.filter (fun b => b ≠ ROLL_BRANCH_NAME),
      baseDirty := false,
      webrtcEntry := rollDepEntry st0.webrtcEntry wl.git_commit,
      libjingleEntry := rollDepEntry st0.libjingleEntry ll.git_commit,
      headWebrtcEntry := rollDepEntry st0.webrtcEntry wl.git_commit,
      headLibjingleEntry := rollDepEntry st0.libjingleEntry ll.git_commit,
      readmeRevision := ll.svn_revision,
      headReadmeRevision := ll.svn_revision,
      commitsMade := st0.commitsMade + 1,
      uploadsMade := st0.uploadsMade + 1 } := by
  have hnm : ¬(ROLL_BRANCH_NAME = "master") := by decide
  have hc := hclean
  rw [treeClean] at hc
  simp only [Bool.and_eq_true, Bool.not_eq_true', beq_iff_eq] at hc
  obtain ⟨⟨⟨h1, h2⟩, h3⟩, h4⟩ := hc
  have hb4 : (st0.readmeRevision == st0.headReadmeRevision) = true := by simp [h4]
  rcases hflag with hf | hf <;>
    simp [PrepareRoll, gitDeleteBranchTolerant, gitCheckoutNewBranch,
      gitCheckout, gitDeleteBranch, treeClean_mk, hbr, hclean, hwc, hlc, hwl, hll,
      hnm, hcl, hchange, h1, h4, hb4, hf, List.mem_filter]

/-- C7: in dry-run (or no-commit) mode with a real change, the commit
and the review upload still happen, but the commit-queue request and the
roll-branch deletion are skipped, so the roll branch still exists (and
is active) when `PrepareRoll` returns success. -/
theorem c7_dry_run_keeps_branch (env : RollEnv) (flags : Flags) (st0 : RepoState)
    (wc lc wl ll : CommitInfo) (cl : CLInfo)
    (hbr : st0.currentBranch = "master")
    (hclean : treeClean st0 = true)
    (hwc : mkCommitInfo (env.gitLogWebrtc (splitAtFirstAt st0.webrtcEntry).2)
      (splitAtFirstAt st0.webrtcEntry).1 = some wc)
    (hlc : mkCommitInfo (env.gitLogLibjingle (splitAtFirstAt st0.libjingleEntry).2)
      (splitAtFirstAt st0.libjingleEntry).1 = some lc)
    (hwl : mkCommitInfo (env.gitLogWebrtc "origin") "" = some wl)
    (hll : mkCommitInfo (env.gitLogLibjingle "origin") "" = some ll)
    (hchange : ¬(rollDepEntry st0.webrtcEntry wl.git_commit = st0.headWebrtcEntry ∧
      rollDepEntry st0.libjingleEntry ll.git_commit = st0.headLibjingleEntry))
    (hcl : _GetCLInfo env.clIssueOutput = .ok cl)
    (hflag : flags.dry_run = true ∨ flags.no_commit = true) :
    isReturned (PrepareRoll env flags st0) = true ∧
    outcomeCode (PrepareRoll env flags st0) = 0 ∧
    (outcomeState (PrepareRoll env flags st0)).commitsMade = st0.commitsMade + 1 ∧
    (outcomeState (PrepareRoll env flags st0)).uploadsMade = st0.uploadsMade + 1 ∧
    (outcomeState (PrepareRoll env flags st0)).cqRequests = st0.cqRequests ∧
    ROLL_BRANCH_NAME ∈ (outcomeState (PrepareRoll env flags st0)).branches ∧
    (outcomeState (PrepareRoll env flags st0)).currentBranch = ROLL_BRANCH_NAME := by
  rw [prepareRoll_dryrun_run env flags st0 wc lc wl ll cl hbr hclean hwc hlc hwl hll
    hchange hcl hflag]
  exact ⟨rfl, rfl, rfl, rfl, rfl, List.mem_cons_self _ _, rfl⟩

/-- C7 witness: dry run with the webrtc upstream one commit ahead. -/
theorem c7_dry_run_keeps_branch_witness :
    dryRunFlags.dry_run = true ∧
    (isReturned (PrepareRoll envOneAhead dryRunFlags cleanCheckout) = true ∧
    outcomeCode (PrepareRoll envOneAhead dryRunFlags cleanCheckout) = 0 ∧
    (outcomeState (PrepareRoll envOneAhead dryRunFlags cleanCheckout)).commitsMade =
      cleanCheckout.commitsMade + 1 ∧
    (outcomeState (PrepareRoll envOneAhead dryRunFlags cleanCheckout)).uploadsMade =
      cleanCheckout.uploadsMade + 1 ∧
    (outcomeState (PrepareRoll envOneAhead dryRunFlags cleanCheckout)).cqRequests =
      cleanCheckout.cqRequests ∧
    ROLL_BRANCH_NAME ∈ (outcomeState (PrepareRoll envOneAhead dryRunFlags cleanCheckout)).branches ∧
    (outcomeState (PrepareRoll envOneAhead dryRunFlags cleanCheckout)).currentBranch =
      ROLL_BRANCH_NAME) :=
  ⟨rfl, c7_dry_run_keeps_branch envOneAhead dryRunFlags cleanCheckout
    ⟨"4321", "abc1234defabc", "https://w.example/w.git"⟩
    ⟨"8765", "fedcba9876543", "https://l.example/l.git"⟩
    ⟨"4400", "1112223334445", ""⟩ ⟨"8765", "fedcba9876543", ""⟩
    ⟨123, "https://host/path", "host"⟩
    rfl (by decide) (by decide) (by decide) (by decide) (by decide)
    (by decide) (by rfl) (Or.inl rfl)⟩

/-! ### Claim theorems: failure handling -/

/-- C2 counterexample: with the upstream log output unparseable, the
run terminates abnormally with `-1` — but the reserved roll branch,
created at the start of `PrepareRoll`, is still present in the final
checkout state, so a parse failure does leave partial state behind. -/
theorem c2_counterexample :
    _ParseSvnRevisionFromGitDescription
      (envBadLog.gitLogWebrtc (splitAtFirstAt cleanCheckout.webrtcEntry).2) = none ∧
    isReturned (PrepareRoll envBadLog defaultFlags cleanCheckout) = false ∧
    outcomeCode (PrepareRoll envBadLog defaultFlags cleanCheckout) = -1 ∧
    ROLL_BRANCH_NAME ∈ (outcomeState (PrepareRoll envBadLog defaultFlags cleanCheckout)).branches :=
  ⟨by decide, by decide, by decide, by decide⟩

/-- The run outcome when the webrtc-current metadata fails to parse:
the process exits with `-1` right after the roll branch was created. -/
theorem prepareRoll_parse_fail_run (env : RollEnv) (flags : Flags) (st0 : RepoState)
    (hbr : st0.currentBranch = "master")
    (hclean : treeClean st0 = true)
    (hmk : mkCommitInfo (env.gitLogWebrtc (splitAtFirstAt st0.webrtcEntry).2)
      (splitAtFirstAt st0.webrtcEntry).1 = none) :
    PrepareRoll env flags st0 = .exited (-1) { st0 with
      currentBranch := ROLL_BRANCH_NAME,
      branches := ROLL_BRANCH_NAME ::
        st0.branches.filter (fun b => b ≠ ROLL_BRANCH_NAME) } := by
  have hnm : ¬(ROLL_BRANCH_NAME = "master") := by decide
  simp [PrepareRoll, gitDeleteBranchTolerant, gitCheckoutNewBranch, hbr, hclean, hmk,
    hnm, List.mem_filter]

/-- The run outcome when the `git cl issue` reply fails to parse (either
regex): the process exits with `-1` after the commit and the upload, the
roll branch still active. -/
theorem prepareRoll_clinfo_fail_run (env : RollEnv) (flags : Flags) (st0 : RepoState)
    (wc lc wl ll : CommitInfo)
    (hbr : st0.currentBranch = "master")
    (hclean : treeClean st0 = true)
    (hwc : mkCommitInfo (env.gitLogWebrtc (splitAtFirstAt st0.webrtcEntry).2)
      (splitAtFirstAt st0.webrtcEntry).1 = some wc)
    (hlc : mkCommitInfo (env.gitLogLibjingle (splitAtFirstAt st0.libjingleEntry).2)
      (splitAtFirstAt st0.libjingleEntry).1 = some lc)
    (hwl : mkCommitInfo (env.gitLogWebrtc "origin") "" = some wl)
    (hll : mkCommitInfo (env.gitLogLibjingle "origin") "" = some ll)
    (hchange : ¬(rollDepEntry st0.webrtcEntry wl.git_commit = st0.headWebrtcEntry ∧
      rollDepEntry st0.libjingleEntry ll.git_commit = st0.headLibjingleEntry))
    (hcl : _GetCLInfo env.clIssueOutput = .error (-1)) :
    PrepareRoll env flags st0 = .exited (-1) { st0 with
      currentBranch := ROLL_BRANCH_NAME,
      branches := ROLL_BRANCH_NAME :: st0.branches.filter (fun b => b ≠ ROLL_BRANCH_NAME),
      baseDirty := false,
      webrtcEntry := rollDepEntry st0.webrtcEntry wl.git_commit,
      libjingleEntry := rollDepEntry st0.libjingleEntry ll.git_commit,
      headWebrtcEntry := rollDepEntry st0.webrtcEntry wl.git_commit,
      headLibjingleEntry := rollDepEntry st0.libjingleEntry ll.git_commit,
      readmeRevision := ll.svn_revision,
      headReadmeRevision := ll.svn_revision,
      commitsMade := st0.commitsMade + 1,
      uploadsMade := st0.uploadsMade + 1 } := by
  have hnm : ¬(ROLL_BRANCH_NAME = "master") := by decide
  have hc := hclean
  rw [treeClean] at hc
  simp only [Bool.and_eq_true, Bool.not_eq_true', beq_iff_eq] at hc
  obtain ⟨⟨⟨h1, h2⟩, h3⟩, h4⟩ := hc
  have hb4 : (st0.readmeRevision == st0.headReadmeRevision) = true := by simp [h4]
  simp [PrepareRoll, gitDeleteBranchTolerant, gitCheckoutNewBranch,
    gitCheckout, gitDeleteBranch, treeClean_mk, hbr, hclean, hwc, hlc, hwl, hll,
    hnm, hcl, hchange, h1, h4, hb4, List.mem_filter]

/-- C2 (amended): precondition failures return `-1` with the checkout
state fully unchanged, and an invalid checkout exits `-2` before the
roller is even constructed; every parse failure — upstream sequence
number, git commit id, issue-number reply, review-host URL — still
terminates the process with `-1`, but partial state remains: the roll
branch created at the start of `PrepareRoll` is still present, and for
the two reply-parse failures the commit and the upload have already
happened. -/
theorem c2_failure_modes :
    (∀ (env : RollEnv) (flags : Flags) (st0 : RepoState),
      flags.ignore_checks = false →
      (st0.currentBranch ≠ "master" ∨ treeClean st0 = false) →
      PrepareRoll env flags st0 = .returned (-1) st0) ∧
    (∀ (env : RollEnv) (flags : Flags) (st0 : RepoState),
      st0.currentBranch = "master" → treeClean st0 = true →
      _ParseSvnRevisionFromGitDescription
        (env.gitLogWebrtc (splitAtFirstAt st0.webrtcEntry).2) = none →
      isReturned (PrepareRoll env flags st0) = false ∧
      outcomeCode (PrepareRoll env flags st0) = -1 ∧
      ROLL_BRANCH_NAME ∈ (outcomeState (PrepareRoll env flags st0)).branches) ∧
    (∀ (env : RollEnv) (flags : Flags) (st0 : RepoState),
      st0.currentBranch = "master" → treeClean st0 = true →
      _ParseGitCommitFromDescription
        (env.gitLogWebrtc (splitAtFirstAt st0.webrtcEntry).2) = none →
      isReturned (PrepareRoll env flags st0) = false ∧
      outcomeCode (PrepareRoll env flags st0) = -1 ∧
      ROLL_BRANCH_NAME ∈ (outcomeState (PrepareRoll env flags st0)).branches) ∧
    (∀ (env : RollEnv) (flags : Flags) (st0 : RepoState) (wc lc wl ll : CommitInfo),
      st0.currentBranch = "master" → treeClean st0 = true →
      mkCommitInfo (env.gitLogWebrtc (splitAtFirstAt st0.webrtcEntry).2)
        (splitAtFirstAt st0.webrtcEntry).1 = some wc →
      mkCommitInfo (env.gitLogLibjingle (splitAtFirstAt st0.libjingleEntry).2)
        (splitAtFirstAt st0.libjingleEntry).1 = some lc →
      mkCommitInfo (env.gitLogWebrtc "origin") "" = some wl →
      mkCommitInfo (env.gitLogLibjingle "origin") "" = some ll →
      ¬(rollDepEntry st0.webrtcEntry wl.git_commit = st0.headWebrtcEntry ∧
        rollDepEntry st0.libjingleEntry ll.git_commit = st0.headLibjingleEntry) →
      matchClIssue (pyStrip env.clIssueOutput) = none →
      isReturned (PrepareRoll env flags st0) = false ∧
      outcomeCode (PrepareRoll env flags st0) = -1 ∧
      ROLL_BRANCH_NAME ∈ (outcomeState (PrepareRoll env flags st0)).branches ∧
      (outcomeState (PrepareRoll env flags st0)).commitsMade = st0.commitsMade + 1 ∧
      (outcomeState (PrepareRoll env flags st0)).uploadsMade = st0.uploadsMade + 1) ∧
    (∀ (env : RollEnv) (flags : Flags) (st0 : RepoState) (wc lc wl ll : CommitInfo)
      (ds : List Char) (url : String),
      st0.currentBranch = "master" → treeClean st0 = true →
      mkCommitInfo (env.gitLogWebrtc (splitAtFirstAt st0.webrtcEntry).2)
        (splitAtFirstAt st0.webrtcEntry).1 = some wc →
      mkCommitInfo (env.gitLogLibjingle (splitAtFirstAt st0.libjingleEntry).2)
        (splitAtFirstAt st0.libjingleEntry).1 = some lc →
      mkCommitInfo (env.gitLogWebrtc "origin") "" = some wl →
      mkCommitInfo (env.gitLogLibjingle "origin") "" = some ll →
      ¬(rollDepEntry st0.webrtcEntry wl.git_commit = st0.headWebrtcEntry ∧
        rollDepEntry st0.libjingleEntry ll.git_commit = st0.headLibjingleEntry) →
      matchClIssue (pyStrip env.clIssueOutput) = some (ds, url) →
      matchRietveldUrl url = none →
      isReturned (PrepareRoll env flags st0) = false ∧
      outcomeCode (PrepareRoll env flags st0) = -1 ∧
      ROLL_BRANCH_NAME ∈ (outcomeState (PrepareRoll env flags st0)).branches ∧
      (outcomeState (PrepareRoll env flags st0)).commitsMade = st0.commitsMade + 1 ∧
      (outcomeState (PrepareRoll env flags st0)).uploadsMade = st0.uploadsMade + 1) ∧
    (∀ p : String, ¬(p = "win32" ∨ p = "cygwin") → mainEarlyExit p false = some (-2)) := by
  refine ⟨?_, ?_, ?_, ?_, ?_, ?_⟩
  · intro env flags st0 hic hpre
    rcases hpre with hb | ht
    · simp [PrepareRoll, hic, hb]
    · by_cases hb : st0.currentBranch = "master"
      · simp [PrepareRoll, hic, hb, ht]
      · simp [PrepareRoll, hic, hb]
  · intro env flags st0 hbr hclean hsvn
    have hmk : mkCommitInfo (env.gitLogWebrtc (splitAtFirstAt st0.webrtcEntry).2)
        (splitAtFirstAt st0.webrtcEntry).1 = none := by
      simp [mkCommitInfo, hsvn]
    rw [prepareRoll_parse_fail_run env flags st0 hbr hclean hmk]
    exact ⟨rfl, rfl, List.mem_cons_self _ _⟩
  · intro env flags st0 hbr hclean hgit
    have hmk : mkCommitInfo (env.gitLogWebrtc (splitAtFirstAt st0.webrtcEntry).2)
        (splitAtFirstAt st0.webrtcEntry).1 = none := by
      cases hs : _ParseSvnRevisionFromGitDescription
          (env.gitLogWebrtc (splitAtFirstAt st0.webrtcEntry).2) <;>
        simp [mkCommitInfo, hs, hgit]
    rw [prepareRoll_parse_fail_run env flags st0 hbr hclean hmk]
    exact ⟨rfl, rfl, List.mem_cons_self _ _⟩
  · intro env flags st0 wc lc wl ll hbr hclean hwc hlc hwl hll hchange hiss
    have hcl : _GetCLInfo env.clIssueOutput = .error (-1) := by
      simp [_GetCLInfo, hiss]
    rw [prepareRoll_clinfo_fail_run env flags st0 wc lc wl ll hbr hclean hwc hlc hwl hll
      hchange hcl]
    exact ⟨rfl, rfl, List.mem_cons_self _ _, rfl, rfl⟩
  · intro env flags st0 wc lc wl ll ds url hbr hclean hwc hlc hwl hll hchange hiss hurl
    have hcl : _GetCLInfo env.clIssueOutput = .error (-1) := by
      simp [_GetCLInfo, hiss, hurl]
    rw [prepareRoll_clinfo_fail_run env flags st0 wc lc wl ll hbr hclean hwc hlc hwl hll
      hchange hcl]
    exact ⟨rfl, rfl, List.mem_cons_self _ _, rfl, rfl⟩
  · intro p hp
    push_neg at hp
    simp [mainEarlyExit, hp.1, hp.2]

/-- C2 witness: the amended behaviour at two concrete bad environments —
an unparseable upstream log (exit `-1`, roll branch left behind) and an
issue reply missing the parenthesized URL (exit `-1` after the commit
and the upload, roll branch left behind). -/
theorem c2_failure_modes_witness :
    treeClean cleanCheckout = true ∧
    (isReturned (PrepareRoll envBadLog defaultFlags cleanCheckout) = false ∧
    outcomeCode (PrepareRoll envBadLog defaultFlags cleanCheckout) = -1 ∧
    ROLL_BRANCH_NAME ∈
      (outcomeState (PrepareRoll envBadLog defaultFlags cleanCheckout)).branches) ∧
    (isReturned (PrepareRoll envBadIssue defaultFlags cleanCheckout) = false ∧
    outcomeCode (PrepareRoll envBadIssue defaultFlags cleanCheckout) = -1 ∧
    ROLL_BRANCH_NAME ∈
      (outcomeState (PrepareRoll envBadIssue defaultFlags cleanCheckout)).branches ∧
    (outcomeState (PrepareRoll envBadIssue defaultFlags cleanCheckout)).commitsMade =
      cleanCheckout.commitsMade + 1 ∧
    (outcomeState (PrepareRoll envBadIssue defaultFlags cleanCheckout)).uploadsMade =
      cleanCheckout.uploadsMade + 1) :=
  ⟨by decide,
    c2_failure_modes.2.1 envBadLog defaultFlags cleanCheckout rfl (by decide) (by decide),
    c2_failure_modes.2.2.2.1 envBadIssue defaultFlags cleanCheckout
      ⟨"4321", "abc1234defabc", "https://w.example/w.git"⟩
      ⟨"8765", "fedcba9876543", "https://l.example/l.git"⟩
      ⟨"4400", "1112223334445", ""⟩ ⟨"8765", "fedcba9876543", ""⟩
      rfl (by decide) (by decide) (by decide) (by decide) (by decide)
      (by decide) (by decide)⟩
